import Mathlib

/-!
Shallow embedding of the patronus-mcp-server tool layer
(src/src/patronus_mcp/server.py).

Python `Any` values are modelled by the inductive `PyVal`; raised
exceptions are modelled by `Except String`; the external Patronus SDK
calls are oracles passed in as `Except`-valued functions.  Each tool
function returns a `ToolResponse`, the model of the JSON envelope
(a dict with "status" = "success" carrying a result, or
"status" = "error" carrying a message).
-/

/-- Model of an arbitrary Python (JSON-like) value, used wherever the
source declares `Any`. -/
inductive PyVal where
  | none : PyVal
  | bool (b : Bool) : PyVal
  | int (n : Int) : PyVal
  | num (q : ℚ) : PyVal
  | str (s : String) : PyVal
  | list (l : List PyVal) : PyVal
  | dict (d : List (String × PyVal)) : PyVal

/-- A Python dict with string keys, modelled as an association list
(Python dicts preserve insertion order). -/
def PyDict : Type := List (String × PyVal)

/-- The `Literal["never", "on-fail", "on-success", "always"]` type of
`explain_strategy`. -/
inductive ExplainStrategy where
  | never : ExplainStrategy
  | onFail : ExplainStrategy
  | onSuccess : ExplainStrategy
  | always : ExplainStrategy
deriving DecidableEq

/-- `RemoteEvaluatorConfig` (server.py lines 27-33): `name` is required,
the five other fields are `Optional`. -/
structure RemoteEvaluatorConfig where
  name : String
  criteria : Option String
  explain_strategy : Option ExplainStrategy
  criteria_config : Option PyDict
  allow_update : Option Bool
  max_attempts : Option Int

/-- Pydantic schema defaulting for `RemoteEvaluatorConfig`: a payload
giving only `name` validates to this value (criteria = None,
explain_strategy = "always", criteria_config = None, allow_update = False,
max_attempts = 3). -/
def RemoteEvaluatorConfig.ofName (name : String) : RemoteEvaluatorConfig :=
  ⟨name, Option.none, Option.some ExplainStrategy.always, Option.none,
    Option.some false, Option.some 3⟩

/-- `AsyncRemoteEvaluatorConfig` (server.py lines 35-41): field-for-field
identical to `RemoteEvaluatorConfig`. -/
structure AsyncRemoteEvaluatorConfig where
  name : String
  criteria : Option String
  explain_strategy : Option ExplainStrategy
  criteria_config : Option PyDict
  allow_update : Option Bool
  max_attempts : Option Int

/-- Pydantic schema defaulting for `AsyncRemoteEvaluatorConfig`. -/
def AsyncRemoteEvaluatorConfig.ofName (name : String) : AsyncRemoteEvaluatorConfig :=
  ⟨name, Option.none, Option.some ExplainStrategy.always, Option.none,
    Option.some false, Option.some 3⟩

/-- The value of one keyword argument handed to the evaluator
constructor. -/
inductive EvKwValue where
  | str (s : String) : EvKwValue
  | strat (e : ExplainStrategy) : EvKwValue
  | cfg (c : PyDict) : EvKwValue
  | bool (b : Bool) : EvKwValue
  | int (n : Int) : EvKwValue

/-- One conditional entry of a kwargs dict: present iff the source value
is non-null (`if config.field is not None: kwargs['field'] = ...`). -/
def optEntry {β : Type} (k : String) (f : β → EvKwValue) :
    Option β → List (String × EvKwValue)
  | Option.some v => [(k, f v)]
  | Option.none => []

/-- The kwargs dict built by `_create_evaluator` (server.py lines 89-101):
each of the five optional fields is added exactly when it is not None,
in source order. -/
def _create_evaluator_kwargs (config : RemoteEvaluatorConfig) :
    List (String × EvKwValue) :=
  optEntry "criteria" EvKwValue.str config.criteria ++
  optEntry "explain_strategy" EvKwValue.strat config.explain_strategy ++
  optEntry "criteria_config" EvKwValue.cfg config.criteria_config ++
  optEntry "allow_update" EvKwValue.bool config.allow_update ++
  optEntry "max_attempts" EvKwValue.int config.max_attempts

/-- Model of a constructed `patronus.RemoteEvaluator`: the name plus the
keyword arguments its constructor received. -/
structure RemoteEvaluator where
  name : String
  kwargs : List (String × EvKwValue)

/-- `_create_evaluator` (server.py lines 89-102). -/
def _create_evaluator (config : RemoteEvaluatorConfig) : RemoteEvaluator :=
  ⟨config.name, _create_evaluator_kwargs config⟩

/-- The kwargs dict built by `_create_async_evaluator`
(server.py lines 166-178), identical in logic to `_create_evaluator`. -/
def _create_async_evaluator_kwargs (config : AsyncRemoteEvaluatorConfig) :
    List (String × EvKwValue) :=
  optEntry "criteria" EvKwValue.str config.criteria ++
  optEntry "explain_strategy" EvKwValue.strat config.explain_strategy ++
  optEntry "criteria_config" EvKwValue.cfg config.criteria_config ++
  optEntry "allow_update" EvKwValue.bool config.allow_update ++
  optEntry "max_attempts" EvKwValue.int config.max_attempts

/-- Model of a constructed `patronus.evals.AsyncRemoteEvaluator`. -/
structure AsyncRemoteEvaluator where
  name : String
  kwargs : List (String × EvKwValue)

/-- `_create_async_evaluator` (server.py lines 166-179). -/
def _create_async_evaluator (config : AsyncRemoteEvaluatorConfig) : AsyncRemoteEvaluator :=
  ⟨config.name, _create_async_evaluator_kwargs config⟩

/-- The generic `Request` wrapper (server.py lines 16-17). -/
structure Request (T : Type) where
  data : T

/-- The JSON envelope every tool returns: a dict with
"status" = "success" and the result payload, or "status" = "error" and
a message. -/
inductive ToolResponse (ρ : Type) where
  | success (result : ρ) : ToolResponse ρ
  | error (message : String) : ToolResponse ρ

/-- The value of the envelope's "status" key. -/
def ToolResponse.status {ρ : Type} : ToolResponse ρ → String
  | ToolResponse.success _ => "success"
  | ToolResponse.error _ => "error"

/-- The result payload of the envelope, if any: an error envelope
carries only a message and no result. -/
def ToolResponse.resultsOf {ρ : Type} : ToolResponse ρ → Option ρ
  | ToolResponse.success r => Option.some r
  | ToolResponse.error _ => Option.none

/-- The `Union[list[str], str, None]` type of `task_context`, minus the
None case (carried by the surrounding `Option`). -/
def TaskContext : Type := (List String) ⊕ String

/-- `EvaluationRequest` (server.py lines 43-51). -/
structure EvaluationRequest where
  evaluator : RemoteEvaluatorConfig
  system_prompt : Option String
  task_context : Option TaskContext
  task_attachments : Option (List PyVal)
  task_input : Option String
  task_output : Option String
  gold_answer : Option String
  task_metadata : Option PyDict

/-- `BatchEvaluationRequest` (server.py lines 62-70). -/
structure BatchEvaluationRequest where
  evaluators : List AsyncRemoteEvaluatorConfig
  task_input : Option String
  task_output : Option String
  system_prompt : Option String
  task_context : Option TaskContext
  task_attachments : Option (List PyVal)
  gold_answer : Option String
  task_metadata : Option PyDict

/-- The value of one task-description keyword argument. -/
inductive FieldValue where
  | str (s : String) : FieldValue
  | ctx (c : TaskContext) : FieldValue
  | atts (l : List PyVal) : FieldValue
  | meta (m : PyDict) : FieldValue

/-- The seven-field allow-list used by both `evaluate` (lines 109-117)
and `batch_evaluate` (lines 192-200).  The source uses a Python set;
membership is what matters, the listing order here is the literal's. -/
def eval_fields : List String :=
  ["task_input", "task_output", "system_prompt", "task_context",
   "task_attachments", "gold_answer", "task_metadata"]

/-- `getattr(request.data, field)` for an `EvaluationRequest`, restricted
to the seven allow-listed names; any other name yields none. -/
def EvaluationRequest.getTaskField (d : EvaluationRequest) : String → Option FieldValue
  | "task_input" => d.task_input.map FieldValue.str
  | "task_output" => d.task_output.map FieldValue.str
  | "system_prompt" => d.system_prompt.map FieldValue.str
  | "task_context" => d.task_context.map FieldValue.ctx
  | "task_attachments" => d.task_attachments.map FieldValue.atts
  | "gold_answer" => d.gold_answer.map FieldValue.str
  | "task_metadata" => d.task_metadata.map FieldValue.meta
  | _ => Option.none

/-- `getattr(request.data, field)` for a `BatchEvaluationRequest`. -/
def BatchEvaluationRequest.getTaskField (d : BatchEvaluationRequest) : String → Option FieldValue
  | "task_input" => d.task_input.map FieldValue.str
  | "task_output" => d.task_output.map FieldValue.str
  | "system_prompt" => d.system_prompt.map FieldValue.str
  | "task_context" => d.task_context.map FieldValue.ctx
  | "task_attachments" => d.task_attachments.map FieldValue.atts
  | "gold_answer" => d.gold_answer.map FieldValue.str
  | "task_metadata" => d.task_metadata.map FieldValue.meta
  | _ => Option.none

/-- The `eval_kwargs` dict built in `evaluate` (server.py lines 107-123):
for each allow-listed field, an entry exactly when the request value is
not None. -/
def evaluate_eval_kwargs (d : EvaluationRequest) : List (String × FieldValue) :=
  eval_fields.filterMap (fun f => (d.getTaskField f).map (fun v => (f, v)))

/-- The `eval_kwargs` dict built in `batch_evaluate`
(server.py lines 191-206), same construction. -/
def batch_eval_kwargs (d : BatchEvaluationRequest) : List (String × FieldValue) :=
  eval_fields.filterMap (fun f => (d.getTaskField f).map (fun v => (f, v)))

/-- The canonical evaluation outcome produced by one evaluator run
(spec section 3 EvaluationOutcome; a passing indicator plus payload). -/
structure EvaluationOutcome where
  score : ℚ
  pass_ : Bool
  text_output : String
  explanation : String

/-- `evaluate` (server.py lines 104-128).  `runEval` is the external
SDK call `evaluator.evaluate(**eval_kwargs)`; a raised exception is the
error case and is caught by the tool's try/except. -/
def evaluate
    (runEval : RemoteEvaluator → List (String × FieldValue) → Except String EvaluationOutcome)
    (request : Request EvaluationRequest) : ToolResponse EvaluationOutcome :=
  match runEval (_create_evaluator request.data.evaluator)
      (evaluate_eval_kwargs request.data) with
  | Except.ok r => ToolResponse.success r
  | Except.error e => ToolResponse.error e

/-- Modelled from the spec: `AsyncPatronus.evaluate` (the SDK call in
server.py lines 208-212, whose code is not in this repository) runs each
evaluator against the single projected task description and yields one
outcome per evaluator; an error raised by any individual evaluator
propagates out of the whole call (spec section 4.3 failure semantics). -/
def runAll
    (runOne : AsyncRemoteEvaluator → List (String × FieldValue) → Except String EvaluationOutcome)
    (kwargs : List (String × FieldValue)) :
    List AsyncRemoteEvaluator → Except String (List EvaluationOutcome)
  | [] => Except.ok []
  | ev :: rest =>
    match runOne ev kwargs with
    | Except.error e => Except.error e
    | Except.ok o =>
      match runAll runOne kwargs rest with
      | Except.error e => Except.error e
      | Except.ok os => Except.ok (o :: os)

/-- Modelled from the spec: `results.succeeded_evaluations()` — the
outcomes whose per-outcome success indicator holds, in input order
(spec section 4.3 step 4). -/
def succeeded_evaluations (outcomes : List EvaluationOutcome) : List EvaluationOutcome :=
  outcomes.filter (fun o => o.pass_)

/-- Modelled from the spec: `results.failed_evaluations()` — the outcomes
whose success indicator does not hold, in input order. -/
def failed_evaluations (outcomes : List EvaluationOutcome) : List EvaluationOutcome :=
  outcomes.filter (fun o => !o.pass_)

/-- Modelled from the spec: `results.all_succeeded()` — the logical AND
of the success indicator over all outcomes (spec section 4.3 step 5). -/
def all_succeeded (outcomes : List EvaluationOutcome) : Bool :=
  outcomes.all (fun o => o.pass_)

/-- The serializable `results_dict` built in `batch_evaluate`
(server.py lines 215-225). -/
structure BatchResultsDict where
  all_succeeded : Bool
  failed_evaluations : List EvaluationOutcome
  succeeded_evaluations : List EvaluationOutcome

/-- `batch_evaluate` (server.py lines 181-230): reject an empty
evaluator list, build the async evaluators and the projected kwargs,
run the SDK batch call (`runOne` per evaluator via `runAll`), and either
serialize the results or catch the exception into an error envelope. -/
def batch_evaluate
    (runOne : AsyncRemoteEvaluator → List (String × FieldValue) → Except String EvaluationOutcome)
    (request : Request BatchEvaluationRequest) : ToolResponse BatchResultsDict :=
  if request.data.evaluators.isEmpty then
    ToolResponse.error "No evaluators provided"
  else
    match runAll runOne (batch_eval_kwargs request.data)
        (request.data.evaluators.map _create_async_evaluator) with
    | Except.error e => ToolResponse.error e
    | Except.ok outcomes =>
      ToolResponse.success
        ⟨all_succeeded outcomes, failed_evaluations outcomes,
          succeeded_evaluations outcomes⟩

/-- The SDK `EvaluationResult` object a custom evaluator function may
return (all fields optional on the SDK model); `custom_evaluate` copies
its six fields verbatim. -/
structure EvaluationResult where
  score : Option ℚ
  pass_ : Option Bool
  text_output : Option String
  explanation : Option String
  metadata : Option PyDict
  tags : Option (List (String × String))

/-- A value returned by the user-supplied custom evaluator function,
tagged by the runtime type tests of server.py lines 334-383, in their
order: `EvaluationResult`, `bool`, `int`/`float`, `str`, anything else.
A float carries its rational value and its Python string rendering (used
by the f-string); `other` carries the rendering of `type(result)`, such
as "<class 'list'>". -/
inductive CustomFnResult where
  | evalResult (r : EvaluationResult) : CustomFnResult
  | bool (b : Bool) : CustomFnResult
  | int (n : Int) : CustomFnResult
  | float (v : ℚ) (pyrepr : String) : CustomFnResult
  | str (s : String) : CustomFnResult
  | other (tyStr : String) : CustomFnResult

/-- The normalized result dict of `custom_evaluate` (the "result" value
of its success envelope). -/
structure CustomResult where
  score : Option ℚ
  pass_ : Option Bool
  text_output : Option String
  explanation : Option String
  metadata : Option PyDict
  tags : Option (List (String × String))

/-- The if/elif classification chain of `custom_evaluate`
(server.py lines 334-383): EvaluationResult passes through verbatim;
a bool scores 1.0/0.0 with text "Pass"/"Fail"; a number scores its float
value against the fixed 0.7 threshold; a string scores 1.0 and passes;
anything else is the unsupported-type error. -/
def classifyCustomResult : CustomFnResult → ToolResponse CustomResult
  | CustomFnResult.evalResult r =>
    ToolResponse.success
      ⟨r.score, r.pass_, r.text_output, r.explanation, r.metadata, r.tags⟩
  | CustomFnResult.bool b =>
    ToolResponse.success
      ⟨Option.some (if b then 1 else 0), Option.some b,
        Option.some (if b then "Pass" else "Fail"),
        Option.some "Boolean evaluation result", Option.some [], Option.some []⟩
  | CustomFnResult.int n =>
    ToolResponse.success
      ⟨Option.some (n : ℚ), Option.some (decide ((n : ℚ) ≥ 7/10)),
        Option.some ("Score: " ++ toString n),
        Option.some "Numeric evaluation result", Option.some [], Option.some []⟩
  | CustomFnResult.float v pyrepr =>
    ToolResponse.success
      ⟨Option.some v, Option.some (decide (v ≥ 7/10)),
        Option.some ("Score: " ++ pyrepr),
        Option.some "Numeric evaluation result", Option.some [], Option.some []⟩
  | CustomFnResult.str s =>
    ToolResponse.success
      ⟨Option.some 1, Option.some true, Option.some s,
        Option.some "Text evaluation result", Option.some [], Option.some []⟩
  | CustomFnResult.other tyStr =>
    ToolResponse.error ("Unsupported result type: " ++ tyStr)

/-- The `request.data` dict of `custom_evaluate`: the
"evaluator_function" key (missing key modelled as none, which in the
source raises KeyError) and the optional "args" key.  The function
itself may raise, hence `Except`. -/
structure CustomEvalData where
  evaluator_function : Option (List PyVal → Except String CustomFnResult)
  args : Option (List PyVal)

/-- `custom_evaluate` (server.py lines 315-386): look up the function
(a missing key raises KeyError, whose str() is the quoted key name,
caught into the error envelope), default a missing "args" to the empty
list, invoke the function, and classify its return value. -/
def custom_evaluate (request : Request CustomEvalData) : ToolResponse CustomResult :=
  match request.data.evaluator_function with
  | Option.none => ToolResponse.error "'evaluator_function'"
  | Option.some f =>
    match f (request.data.args.getD []) with
    | Except.error e => ToolResponse.error e
    | Except.ok result => classifyCustomResult result

/-- `ExperimentRequest` (server.py lines 53-60). -/
structure ExperimentRequest where
  project_name : String
  experiment_name : String
  dataset : List PyDict
  evaluators : List RemoteEvaluatorConfig
  tags : Option (List (String × String))
  max_concurrency : Int
  api_key : Option String

/-- The value of one experiment keyword argument. -/
inductive ExpKwValue where
  | str (s : String) : ExpKwValue
  | dataset (d : List PyDict) : ExpKwValue
  | tags (t : List (String × String)) : ExpKwValue
  | int (n : Int) : ExpKwValue

/-- The `experiment_kwargs` dict of `run_experiment`
(server.py lines 137-150): the six listed fields filtered to non-null
values — the four required fields are never null, `tags` and `api_key`
only when set. -/
def experiment_kwargs (d : ExperimentRequest) : List (String × ExpKwValue) :=
  [("project_name", ExpKwValue.str d.project_name),
   ("experiment_name", ExpKwValue.str d.experiment_name),
   ("dataset", ExpKwValue.dataset d.dataset),
   ("max_concurrency", ExpKwValue.int d.max_concurrency)] ++
  (match d.tags with
   | Option.some t => [("tags", ExpKwValue.tags t)]
   | Option.none => []) ++
  (match d.api_key with
   | Option.some k => [("api_key", ExpKwValue.str k)]
   | Option.none => [])

/-- The object returned by the external experiment runner: it either has
a `to_dict` method (modelled by carrying the dict) or not (the code falls
back to `str(result)`, modelled by carrying that string). -/
inductive ExpOutcome where
  | withDict (d : PyDict) : ExpOutcome
  | plain (s : String) : ExpOutcome

/-- `run_experiment` (server.py lines 130-164): build the evaluators and
kwargs, call the external runner (`runExp`, which may raise), then
serialize via `to_dict` when available else `str`. -/
def run_experiment
    (runExp : List RemoteEvaluator → List (String × ExpKwValue) → Except String ExpOutcome)
    (request : Request ExperimentRequest) : ToolResponse (PyDict ⊕ String) :=
  match runExp (request.data.evaluators.map _create_evaluator)
      (experiment_kwargs request.data) with
  | Except.error e => ToolResponse.error e
  | Except.ok (ExpOutcome.withDict d) => ToolResponse.success (Sum.inl d)
  | Except.ok (ExpOutcome.plain s) => ToolResponse.success (Sum.inr s)

/-- `CreateCriteriaRequest` (server.py lines 84-87). -/
structure CreateCriteriaRequest where
  name : String
  evaluator_family : String
  config : PyDict

/-- `create_criteria` (server.py lines 249-275).  `clientPresent` models
whether a Patronus client was provided; `requestData` is the raw
request's "data" entry (missing key raises KeyError "'data'");
`parse` models pydantic validation of `CreateCriteriaRequest(**data)`;
`createSync` models the SDK call, returning the dumped criterion. -/
def create_criteria
    (clientPresent : Bool)
    (parse : PyDict → Except String CreateCriteriaRequest)
    (createSync : CreateCriteriaRequest → Except String PyDict)
    (requestData : Option PyDict) : ToolResponse PyDict :=
  if !clientPresent then
    ToolResponse.error "Patronus client must be provided"
  else
    match requestData with
    | Option.none => ToolResponse.error "'data'"
    | Option.some d =>
      match parse d with
      | Except.error e => ToolResponse.error e
      | Except.ok obj =>
        match createSync obj with
        | Except.error e => ToolResponse.error e
        | Except.ok resp => ToolResponse.success resp

/-- One dumped evaluator record from the listing API, split into the
fields `list_evaluator_info` inspects (`evaluator_family`, `name`) and
the remaining key/value pairs it keeps verbatim. -/
structure EvaluatorRec where
  evaluator_family : Option String
  name : String
  rest : PyDict

/-- One dumped criterion record, split into the inspected
`evaluator_family` and `revision` and the kept remainder. -/
structure CriterionRec where
  evaluator_family : Option String
  revision : Option String
  rest : PyDict

/-- One value of the `result` dict of `list_evaluator_info`: the
family's evaluator data (fields minus family and name) and its criteria
list. -/
structure FamilyEntry where
  evaluator : PyDict
  criteria : List PyDict

/-- The first loop body of `list_evaluator_info` (server.py lines
291-300): a family not yet present gets an entry built from this
evaluator (minus `evaluator_family`/`name`) with an empty criteria list;
a family already present leaves the dict unchanged. -/
def insertEvaluator (result : List (Option String × FamilyEntry)) (ev : EvaluatorRec) :
    List (Option String × FamilyEntry) :=
  if (result.lookup ev.evaluator_family).isSome then result
  else result ++ [(ev.evaluator_family, ⟨ev.rest, []⟩)]

/-- The update `result[family]['criteria'].append(criterion_data)` of
server.py line 309, applied to one entry of the result dict: the entry
whose key is the criterion's family gets the criterion's kept data
appended; other entries are unchanged. -/
def appendCriterion (c : CriterionRec) (p : Option String × FamilyEntry) :
    Option String × FamilyEntry :=
  if p.1 == c.evaluator_family then (p.1, ⟨p.2.evaluator, p.2.criteria ++ [c.rest]⟩)
  else p

/-- The second loop body of `list_evaluator_info` (server.py lines
303-309): a criterion whose family is present appends its data (minus
`evaluator_family`/`revision`) to that family's criteria; otherwise the
criterion is skipped. -/
def addCriterion (result : List (Option String × FamilyEntry)) (c : CriterionRec) :
    List (Option String × FamilyEntry) :=
  if (result.lookup c.evaluator_family).isSome then
    result.map (appendCriterion c)
  else result

/-- The `result` dict assembled by `list_evaluator_info`
(server.py lines 288-309): fold the evaluators, then the criteria. -/
def buildFamilyInfo (evaluators : List EvaluatorRec) (criteria : List CriterionRec) :
    List (Option String × FamilyEntry) :=
  criteria.foldl addCriterion (evaluators.foldl insertEvaluator [])

/-- `_list_evaluators` (server.py lines 232-238): raise if no client was
provided, else fetch the evaluator listing (`fetch` is the API oracle). -/
def _list_evaluators (clientPresent : Bool)
    (fetch : Except String (List EvaluatorRec)) : Except String (List EvaluatorRec) :=
  if !clientPresent then Except.error "Patronus client must be provided"
  else fetch

/-- `_list_criteria` (server.py lines 240-247): raise if no client was
provided, else fetch the criteria listing. -/
def _list_criteria (clientPresent : Bool)
    (fetch : Except String (List CriterionRec)) : Except String (List CriterionRec) :=
  if !clientPresent then Except.error "Patronus client must be provided"
  else fetch

/-- `list_evaluator_info` (server.py lines 277-313): fetch both listings
(either fetch may raise, caught into the error envelope), group
evaluators by family, attach criteria, and return the success
envelope. -/
def list_evaluator_info (clientPresent : Bool)
    (fetchEvaluators : Except String (List EvaluatorRec))
    (fetchCriteria : Except String (List CriterionRec)) :
    ToolResponse (List (Option String × FamilyEntry)) :=
  match _list_evaluators clientPresent fetchEvaluators with
  | Except.error e => ToolResponse.error e
  | Except.ok evaluators =>
    match _list_criteria clientPresent fetchCriteria with
    | Except.error e => ToolResponse.error e
    | Except.ok criteria =>
      ToolResponse.success (buildFamilyInfo evaluators criteria)

/-! ### Supporting lemmas -/

/-- Key membership in a kwargs dict built by projecting an allow-list of
field names through an accessor. -/
lemma mem_keys_projection (g : String → Option FieldValue) (l : List String) (k : String) :
    k ∈ (l.filterMap (fun f => (g f).map (fun v => (f, v)))).map Prod.fst ↔
      k ∈ l ∧ (g k).isSome = true := by
  induction l with
  | nil => simp
  | cons a t ih =>
    by_cases hk : k = a
    · subst hk
      cases h : g k with
      | none => simp [List.filterMap_cons, h, ih]
      | some v => simp [List.filterMap_cons, h]
    · cases h : g a with
      | none => simp [List.filterMap_cons, h, ih, hk]
      | some v => simp [List.filterMap_cons, h, ih, hk]

/-- Every tool envelope's status is "success" or "error". -/
lemma status_cases {ρ : Type} (r : ToolResponse ρ) :
    r.status = "success" ∨ r.status = "error" := by
  cases r
  · exact Or.inl rfl
  · exact Or.inr rfl

/-! ### Claims -/

/-- C1: for every task-description payload, the keyword-argument mapping
built for the evaluation call, in both `evaluate` and `batch_evaluate`,
contains a key exactly when it belongs to the seven-field allow-list and
its value in the request is non-null; no other keys appear. -/
theorem C1_field_projection_exact_keys (d : EvaluationRequest)
    (b : BatchEvaluationRequest) (k : String) :
    (k ∈ (evaluate_eval_kwargs d).map Prod.fst ↔
      k ∈ eval_fields ∧ (d.getTaskField k).isSome = true) ∧
    (k ∈ (batch_eval_kwargs b).map Prod.fst ↔
      k ∈ eval_fields ∧ (b.getTaskField k).isSome = true) :=
  ⟨mem_keys_projection d.getTaskField eval_fields k,
   mem_keys_projection b.getTaskField eval_fields k⟩

/-- C2: a `batch_evaluate` request with an empty evaluators list returns
the error envelope "No evaluators provided" whatever the other fields
are, and for every SDK oracle — so no evaluator is constructed and the
SDK call never runs. -/
theorem C2_empty_evaluators_rejected
    (runOne : AsyncRemoteEvaluator → List (String × FieldValue) → Except String EvaluationOutcome)
    (request : Request BatchEvaluationRequest)
    (h : request.data.evaluators = []) :
    batch_evaluate runOne request = ToolResponse.error "No evaluators provided" := by
  simp [batch_evaluate, h]

/-- Witness for C2 at a concrete empty-evaluators request. -/
theorem C2_empty_evaluators_rejected_witness :
    batch_evaluate (fun _ _ => Except.ok ⟨1, true, "", ""⟩)
      ⟨⟨[], Option.none, Option.none, Option.none, Option.none, Option.none,
        Option.none, Option.none⟩⟩ =
      ToolResponse.error "No evaluators provided" :=
  C2_empty_evaluators_rejected _ _ rfl

/-- C3: `custom_evaluate` classifies the function's return value by
runtime type in the source's precedence order — an `EvaluationResult`
passes through verbatim, a boolean scores 1.0/0.0 with pass equal to the
boolean, a numeric value scores itself with pass iff it reaches the
fixed 0.7 threshold (so 0.4 fails and 0.7 passes), and a string scores
1.0, passes, and is returned verbatim as text_output. -/
theorem C3_custom_result_classification :
    (∀ (args : Option (List PyVal)) (fr : CustomFnResult),
      custom_evaluate ⟨⟨Option.some (fun _ => Except.ok fr), args⟩⟩ =
        classifyCustomResult fr) ∧
    (∀ (r : EvaluationResult), classifyCustomResult (CustomFnResult.evalResult r) =
      ToolResponse.success
        ⟨r.score, r.pass_, r.text_output, r.explanation, r.metadata, r.tags⟩) ∧
    (∀ (b : Bool), classifyCustomResult (CustomFnResult.bool b) =
      ToolResponse.success
        ⟨Option.some (if b then 1 else 0), Option.some b,
          Option.some (if b then "Pass" else "Fail"),
          Option.some "Boolean evaluation result", Option.some [], Option.some []⟩) ∧
    (∀ (n : Int), classifyCustomResult (CustomFnResult.int n) =
      ToolResponse.success
        ⟨Option.some (n : ℚ), Option.some (decide ((n : ℚ) ≥ 7/10)),
          Option.some ("Score: " ++ toString n),
          Option.some "Numeric evaluation result", Option.some [], Option.some []⟩) ∧
    (∀ (v : ℚ) (pyrepr : String), classifyCustomResult (CustomFnResult.float v pyrepr) =
      ToolResponse.success
        ⟨Option.some v, Option.some (decide (v ≥ 7/10)),
          Option.some ("Score: " ++ pyrepr),
          Option.some "Numeric evaluation result", Option.some [], Option.some []⟩) ∧
    decide ((4/10 : ℚ) ≥ 7/10) = false ∧
    decide ((7/10 : ℚ) ≥ 7/10) = true ∧
    (∀ (s : String), classifyCustomResult (CustomFnResult.str s) =
      ToolResponse.success
        ⟨Option.some 1, Option.some true, Option.some s,
          Option.some "Text evaluation result", Option.some [], Option.some []⟩) :=
  ⟨fun _ _ => rfl, fun _ => rfl, fun _ => rfl, fun _ => rfl, fun _ _ => rfl,
   by rw [decide_eq_false_iff_not]; norm_num,
   by rw [decide_eq_true_eq], fun _ => rfl⟩

/-- C8: a custom evaluator function returning a value of any unsupported
runtime type yields the error envelope whose message is "Unsupported
result type: " followed by the rendering of the offending type. -/
theorem C8_unsupported_type_error (args : Option (List PyVal)) (tyStr : String) :
    custom_evaluate ⟨⟨Option.some (fun _ => Except.ok (CustomFnResult.other tyStr)), args⟩⟩ =
      ToolResponse.error ("Unsupported result type: " ++ tyStr) := rfl

/-- Witness for C8 at the concrete type rendering of a Python list. -/
theorem C8_unsupported_type_error_witness :
    custom_evaluate
      ⟨⟨Option.some (fun _ => Except.ok (CustomFnResult.other "<class 'list'>")),
        Option.none⟩⟩ =
      ToolResponse.error "Unsupported result type: <class 'list'>" :=
  C8_unsupported_type_error Option.none "<class 'list'>"

/-- C10: a `custom_evaluate` request whose data omits the "args" key
behaves exactly like one with an empty args list — the function is
invoked with zero positional arguments and its result is classified
normally, not turned into an error. -/
theorem C10_missing_args_defaults_to_empty :
    (∀ (f : List PyVal → Except String CustomFnResult),
      custom_evaluate ⟨⟨Option.some f, Option.none⟩⟩ =
        custom_evaluate ⟨⟨Option.some f, Option.some []⟩⟩) ∧
    (∀ (fr : CustomFnResult),
      custom_evaluate ⟨⟨Option.some (fun _ => Except.ok fr), Option.none⟩⟩ =
        classifyCustomResult fr) :=
  ⟨fun _ => rfl, fun _ => rfl⟩

/-- C7: each of the six tool functions returns, on every input and for
every behavior of the external SDK oracles including raised exceptions,
an envelope whose status is "success" or "error"; since each is a total
function into `ToolResponse`, no exception escapes. -/
theorem C7_all_tools_return_envelopes :
    (∀ runEval (request : Request EvaluationRequest),
      (evaluate runEval request).status = "success" ∨
      (evaluate runEval request).status = "error") ∧
    (∀ runOne (request : Request BatchEvaluationRequest),
      (batch_evaluate runOne request).status = "success" ∨
      (batch_evaluate runOne request).status = "error") ∧
    (∀ runExp (request : Request ExperimentRequest),
      (run_experiment runExp request).status = "success" ∨
      (run_experiment runExp request).status = "error") ∧
    (∀ (request : Request CustomEvalData),
      (custom_evaluate request).status = "success" ∨
      (custom_evaluate request).status = "error") ∧
    (∀ clientPresent parse createSync requestData,
      (create_criteria clientPresent parse createSync requestData).status = "success" ∨
      (create_criteria clientPresent parse createSync requestData).status = "error") ∧
    (∀ clientPresent fetchEvaluators fetchCriteria,
      (list_evaluator_info clientPresent fetchEvaluators fetchCriteria).status = "success" ∨
      (list_evaluator_info clientPresent fetchEvaluators fetchCriteria).status = "error") :=
  ⟨fun _ _ => status_cases _, fun _ _ => status_cases _, fun _ _ => status_cases _,
   fun _ => status_cases _, fun _ _ _ _ => status_cases _, fun _ _ _ => status_cases _⟩

/-- C4 counterexample: a spec with every optional field at its declared
default does NOT forward all five optional fields — `criteria`, whose
declared default is null, is absent from the constructor kwargs. -/
theorem C4_counterexample_criteria_not_forwarded :
    ¬ ("criteria" ∈ (_create_evaluator_kwargs (RemoteEvaluatorConfig.ofName "judge")).map
        Prod.fst) := by
  decide

/-- C4 (amended): the resolver passes to the evaluator constructor
exactly those optional fields whose value is non-null; for a spec with
all optional fields at their declared defaults the kwargs are exactly
explain_strategy = "always", allow_update = false, max_attempts = 3,
while criteria and criteria_config (declared default null) are
omitted. -/
theorem C4_resolver_forwards_nonnull_fields (config : RemoteEvaluatorConfig) (n : String) :
    (("criteria" ∈ (_create_evaluator_kwargs config).map Prod.fst) ↔
      config.criteria.isSome = true) ∧
    (("explain_strategy" ∈ (_create_evaluator_kwargs config).map Prod.fst) ↔
      config.explain_strategy.isSome = true) ∧
    (("criteria_config" ∈ (_create_evaluator_kwargs config).map Prod.fst) ↔
      config.criteria_config.isSome = true) ∧
    (("allow_update" ∈ (_create_evaluator_kwargs config).map Prod.fst) ↔
      config.allow_update.isSome = true) ∧
    (("max_attempts" ∈ (_create_evaluator_kwargs config).map Prod.fst) ↔
      config.max_attempts.isSome = true) ∧
    _create_evaluator (RemoteEvaluatorConfig.ofName n) =
      ⟨n, [("explain_strategy", EvKwValue.strat ExplainStrategy.always),
           ("allow_update", EvKwValue.bool false),
           ("max_attempts", EvKwValue.int 3)]⟩ := by
  obtain ⟨nm, c, e, cc, au, ma⟩ := config
  refine ⟨?_, ?_, ?_, ?_, ?_, rfl⟩ <;>
    cases c <;> cases e <;> cases cc <;> cases au <;> cases ma <;>
      simp [_create_evaluator_kwargs, optEntry]

/-- If any evaluator in the list raises, the whole batch run raises. -/
lemma runAll_error_of_mem
    (runOne : AsyncRemoteEvaluator → List (String × FieldValue) → Except String EvaluationOutcome)
    (kwargs : List (String × FieldValue)) (l : List AsyncRemoteEvaluator)
    (h : ∃ ev ∈ l, ∃ e, runOne ev kwargs = Except.error e) :
    ∃ e, runAll runOne kwargs l = Except.error e := by
  induction l with
  | nil =>
    obtain ⟨ev, hm, _⟩ := h
    cases hm
  | cons a t ih =>
    obtain ⟨ev, hm, e, he⟩ := h
    rcases List.mem_cons.mp hm with h1 | h2
    · subst h1
      exact ⟨e, by simp [runAll, he]⟩
    · cases ha : runOne a kwargs with
      | error e2 => exact ⟨e2, by simp [runAll, ha]⟩
      | ok o =>
        obtain ⟨e3, he3⟩ := ih ⟨ev, h2, e, he⟩
        exact ⟨e3, by simp [runAll, ha, he3]⟩

/-- A successful batch run yields exactly one outcome per evaluator. -/
lemma runAll_ok_length
    (runOne : AsyncRemoteEvaluator → List (String × FieldValue) → Except String EvaluationOutcome)
    (kwargs : List (String × FieldValue)) :
    ∀ (l : List AsyncRemoteEvaluator) (outcomes : List EvaluationOutcome),
      runAll runOne kwargs l = Except.ok outcomes → outcomes.length = l.length := by
  intro l
  induction l with
  | nil =>
    intro outcomes h
    simp only [runAll] at h
    cases h
    rfl
  | cons a t ih =>
    intro outcomes h
    simp only [runAll] at h
    cases ha : runOne a kwargs with
    | error e => rw [ha] at h; cases h
    | ok o =>
      rw [ha] at h
      cases hr : runAll runOne kwargs t with
      | error e => rw [hr] at h; cases h
      | ok os =>
        rw [hr] at h
        cases h
        simp [ih os hr]

/-- The two filters of a boolean predicate partition a list's length. -/
lemma length_filter_partition (p : EvaluationOutcome → Bool) (l : List EvaluationOutcome) :
    (l.filter p).length + (l.filter (fun o => !p o)).length = l.length := by
  induction l with
  | nil => rfl
  | cons a t ih =>
    cases h : p a <;> simp [List.filter_cons, h, ← ih] <;> omega

/-- `all` holds exactly when the filter by the negated predicate is
empty. -/
lemma all_iff_filter_not_nil (p : EvaluationOutcome → Bool) (l : List EvaluationOutcome) :
    (l.all p = true) ↔ l.filter (fun o => !p o) = [] := by
  induction l with
  | nil => simp
  | cons a t ih =>
    cases h : p a <;> simp [List.filter_cons, h, ih]

/-- C5: when any individual evaluator's execution raises, the whole
`batch_evaluate` call returns an error envelope — its status is "error"
and it carries no results dict at all, so the exception is never turned
into a per-evaluator failed-outcome entry of a partial result. -/
theorem C5_evaluator_exception_fails_whole_call
    (runOne : AsyncRemoteEvaluator → List (String × FieldValue) → Except String EvaluationOutcome)
    (request : Request BatchEvaluationRequest)
    (h : ∃ ev ∈ request.data.evaluators.map _create_async_evaluator,
      ∃ e, runOne ev (batch_eval_kwargs request.data) = Except.error e) :
    (batch_evaluate runOne request).status = "error" ∧
    (batch_evaluate runOne request).resultsOf = Option.none := by
  obtain ⟨e, he⟩ := runAll_error_of_mem runOne (batch_eval_kwargs request.data)
    (request.data.evaluators.map _create_async_evaluator) h
  have hne : request.data.evaluators.isEmpty = false := by
    obtain ⟨ev, hm, _⟩ := h
    cases hl : request.data.evaluators with
    | nil => rw [hl] at hm; cases hm
    | cons a t => rfl
  constructor <;> simp [batch_evaluate, hne, he, ToolResponse.status, ToolResponse.resultsOf]

/-- Witness for C5: one evaluator whose execution raises "boom". -/
theorem C5_evaluator_exception_fails_whole_call_witness :
    (batch_evaluate (fun _ _ => Except.error "boom")
      ⟨⟨[AsyncRemoteEvaluatorConfig.ofName "judge"], Option.none, Option.none,
        Option.none, Option.none, Option.none, Option.none, Option.none⟩⟩).status = "error" ∧
    (batch_evaluate (fun _ _ => Except.error "boom")
      ⟨⟨[AsyncRemoteEvaluatorConfig.ofName "judge"], Option.none, Option.none,
        Option.none, Option.none, Option.none, Option.none, Option.none⟩⟩).resultsOf =
      Option.none :=
  C5_evaluator_exception_fails_whole_call _ _
    ⟨_create_async_evaluator (AsyncRemoteEvaluatorConfig.ofName "judge"),
      List.mem_singleton.mpr rfl, "boom", rfl⟩

/-- C6: whenever `batch_evaluate` returns a results dict, it satisfies
the BatchResult invariants — `all_succeeded` holds iff the failed list
is empty, and the succeeded and failed lists together contain exactly
one outcome per requested evaluator. -/
theorem C6_batch_result_invariants
    (runOne : AsyncRemoteEvaluator → List (String × FieldValue) → Except String EvaluationOutcome)
    (request : Request BatchEvaluationRequest) (rd : BatchResultsDict)
    (h : batch_evaluate runOne request = ToolResponse.success rd) :
    (rd.all_succeeded = true ↔ rd.failed_evaluations = []) ∧
    rd.succeeded_evaluations.length + rd.failed_evaluations.length =
      request.data.evaluators.length := by
  unfold batch_evaluate at h
  by_cases hemp : request.data.evaluators.isEmpty
  · rw [if_pos hemp] at h
    cases h
  · rw [if_neg hemp] at h
    cases hr : runAll runOne (batch_eval_kwargs request.data)
        (request.data.evaluators.map _create_async_evaluator) with
    | error e => rw [hr] at h; cases h
    | ok outcomes =>
      rw [hr] at h
      cases h
      have hlen := runAll_ok_length runOne (batch_eval_kwargs request.data)
        (request.data.evaluators.map _create_async_evaluator) outcomes hr
      rw [List.length_map] at hlen
      constructor
      · simp only [all_succeeded, failed_evaluations]
        exact all_iff_filter_not_nil (fun o => o.pass_) outcomes
      · simpa [succeeded_evaluations, failed_evaluations, hlen] using
          length_filter_partition (fun o => o.pass_) outcomes

/-- Witness for C6: one passing evaluator gives a results dict with
all_succeeded, no failed outcomes, and one succeeded outcome. -/
theorem C6_batch_result_invariants_witness :
    ((true = true) ↔ ([] : List EvaluationOutcome) = []) ∧
    ([(⟨1, true, "ok", "fine"⟩ : EvaluationOutcome)].length +
      ([] : List EvaluationOutcome).length = 1) :=
  C6_batch_result_invariants (fun _ _ => Except.ok ⟨1, true, "ok", "fine"⟩)
    ⟨⟨[AsyncRemoteEvaluatorConfig.ofName "judge"], Option.none, Option.none,
      Option.none, Option.none, Option.none, Option.none, Option.none⟩⟩
    ⟨true, [], [⟨1, true, "ok", "fine"⟩]⟩ rfl

/-- Association-list lookup distributes over append. -/
lemma lookup_append (l1 l2 : List (Option String × FamilyEntry)) (k : Option String) :
    (l1 ++ l2).lookup k =
      (match l1.lookup k with
       | Option.some v => Option.some v
       | Option.none => l2.lookup k) := by
  induction l1 with
  | nil => simp [List.lookup]
  | cons a t ih =>
    obtain ⟨k1, v1⟩ := a
    cases h : (k == k1) <;> simp [List.lookup, h, ih]

/-- Folding `insertEvaluator` over the evaluator listing: an existing
entry of the accumulator is kept untouched, and a fresh family is bound
to the FIRST evaluator of that family in the listing. -/
lemma lookup_insertEvaluator_fold (evs : List EvaluatorRec) :
    ∀ (acc : List (Option String × FamilyEntry)) (fam : Option String),
      ((evs.foldl insertEvaluator acc).lookup fam) =
        (match acc.lookup fam with
         | Option.some v => Option.some v
         | Option.none =>
           (evs.find? (fun e => e.evaluator_family == fam)).map
             (fun e => (⟨e.rest, []⟩ : FamilyEntry))) := by
  induction evs with
  | nil =>
    intro acc fam
    cases hf : acc.lookup fam <;> simp [hf]
  | cons a t ih =>
    intro acc fam
    simp only [List.foldl_cons]
    rw [ih]
    unfold insertEvaluator
    by_cases ha : ((acc.lookup a.evaluator_family)).isSome
    · rw [if_pos ha]
      cases hf : acc.lookup fam with
      | some v => simp
      | none =>
        cases hq : (a.evaluator_family == fam) with
        | true =>
          have heq : a.evaluator_family = fam := by simpa using hq
          rw [heq, hf] at ha
          simp at ha
        | false => simp [List.find?, hq]
    · rw [if_neg ha, lookup_append]
      cases hf : acc.lookup fam with
      | some v => simp
      | none =>
        by_cases hq : a.evaluator_family = fam
        · subst hq
          simp [List.lookup, List.find?]
        · have h1 : (fam == a.evaluator_family) = false := by
            simp [hq]
            exact fun h2 => hq h2.symm
          have h2 : (a.evaluator_family == fam) = false := by simp [hq]
          simp [List.lookup, List.find?, h1, h2]

/-- The result dict after the first loop of `list_evaluator_info`:
each family maps to the first listed evaluator of that family. -/
lemma lookup_buildStep1 (evs : List EvaluatorRec) (fam : Option String) :
    ((evs.foldl insertEvaluator []).lookup fam) =
      (evs.find? (fun e => e.evaluator_family == fam)).map
        (fun e => (⟨e.rest, []⟩ : FamilyEntry)) := by
  rw [lookup_insertEvaluator_fold]
  simp [List.lookup]

/-- Lookup after mapping `appendCriterion` over the dict: the value is
updated exactly at the criterion's family key. -/
lemma lookup_map_appendCriterion (c : CriterionRec)
    (res : List (Option String × FamilyEntry)) (fam : Option String) :
    ((res.map (appendCriterion c)).lookup fam) =
      (res.lookup fam).map (fun v =>
        if (fam == c.evaluator_family) = true then
          (⟨v.evaluator, v.criteria ++ [c.rest]⟩ : FamilyEntry)
        else v) := by
  induction res with
  | nil => simp [List.lookup]
  | cons a t ih =>
    obtain ⟨k, v⟩ := a
    simp only [List.map_cons]
    by_cases h1 : k = c.evaluator_family
    · have hhead : appendCriterion c (k, v) =
          (k, (⟨v.evaluator, v.criteria ++ [c.rest]⟩ : FamilyEntry)) := by
        simp [appendCriterion, h1]
      rw [hhead]
      by_cases h2 : fam = k
      · have hb2 : (fam == k) = true := by simp [h2]
        have hb3 : (fam == c.evaluator_family) = true := by simp [h2, h1]
        simp [List.lookup, hb2, hb3]
      · have hb2 : (fam == k) = false := by simp [h2]
        simp [List.lookup, hb2, ih]
    · have hhead : appendCriterion c (k, v) = (k, v) := by
        simp [appendCriterion, h1]
      rw [hhead]
      by_cases h2 : fam = k
      · have hb2 : (fam == k) = true := by simp [h2]
        have hb3 : (fam == c.evaluator_family) = false := by
          rw [h2]
          simp [h1]
        simp [List.lookup, hb2, hb3]
      · have hb2 : (fam == k) = false := by simp [h2]
        simp [List.lookup, hb2, ih]

/-- `addCriterion` never adds or removes a family key. -/
lemma addCriterion_lookup_isSome (res : List (Option String × FamilyEntry))
    (c : CriterionRec) (fam : Option String) :
    (((addCriterion res c).lookup fam)).isSome = ((res.lookup fam)).isSome := by
  unfold addCriterion
  by_cases h : ((res.lookup c.evaluator_family)).isSome
  · rw [if_pos h, lookup_map_appendCriterion]
    cases res.lookup fam <;> simp
  · rw [if_neg h]

/-- `addCriterion` never changes a family's evaluator data. -/
lemma addCriterion_lookup_evaluator (res : List (Option String × FamilyEntry))
    (c : CriterionRec) (fam : Option String) :
    ((addCriterion res c).lookup fam).map FamilyEntry.evaluator =
      (res.lookup fam).map FamilyEntry.evaluator := by
  unfold addCriterion
  by_cases h : ((res.lookup c.evaluator_family)).isSome
  · rw [if_pos h, lookup_map_appendCriterion]
    cases res.lookup fam with
    | none => simp
    | some v => cases hq : (fam == c.evaluator_family) <;> simp [hq]
  · rw [if_neg h]

/-- A criterion whose family has no entry leaves the dict unchanged. -/
lemma addCriterion_noop (res : List (Option String × FamilyEntry)) (c : CriterionRec)
    (h : (res.lookup c.evaluator_family) = Option.none) :
    addCriterion res c = res := by
  simp [addCriterion, h]

/-- Folding the criteria loop never adds or removes a family key. -/
lemma foldl_addCriterion_lookup_isSome (cs : List CriterionRec) :
    ∀ (acc : List (Option String × FamilyEntry)) (fam : Option String),
      (((cs.foldl addCriterion acc).lookup fam)).isSome = ((acc.lookup fam)).isSome := by
  induction cs with
  | nil => intro acc fam; rfl
  | cons c t ih =>
    intro acc fam
    simp only [List.foldl_cons]
    rw [ih, addCriterion_lookup_isSome]

/-- Folding the criteria loop never changes a family's evaluator data. -/
lemma foldl_addCriterion_lookup_evaluator (cs : List CriterionRec) :
    ∀ (acc : List (Option String × FamilyEntry)) (fam : Option String),
      ((cs.foldl addCriterion acc).lookup fam).map FamilyEntry.evaluator =
        ((acc.lookup fam)).map FamilyEntry.evaluator := by
  induction cs with
  | nil => intro acc fam; rfl
  | cons c t ih =>
    intro acc fam
    simp only [List.foldl_cons]
    rw [ih, addCriterion_lookup_evaluator]

/-- Criteria whose family has no entry of the step-1 dict can be
filtered out of the criteria loop without changing its result. -/
lemma foldl_addCriterion_filter (step1 : List (Option String × FamilyEntry))
    (cs : List CriterionRec) :
    ∀ (acc : List (Option String × FamilyEntry)),
      (∀ fam, ((acc.lookup fam)).isSome = ((step1.lookup fam)).isSome) →
      cs.foldl addCriterion acc =
        (cs.filter (fun c => ((step1.lookup c.evaluator_family)).isSome)).foldl
          addCriterion acc := by
  induction cs with
  | nil => intro acc _; rfl
  | cons c t ih =>
    intro acc hinv
    simp only [List.foldl_cons, List.filter_cons]
    cases h : ((step1.lookup c.evaluator_family)).isSome with
    | false =>
      have hacc : (acc.lookup c.evaluator_family) = Option.none := by
        have h2 := hinv c.evaluator_family
        rw [h] at h2
        cases hacc2 : acc.lookup c.evaluator_family with
        | none => rfl
        | some v => rw [hacc2] at h2; simp at h2
      rw [addCriterion_noop acc c hacc]
      simp only [h, Bool.false_eq_true, if_false]
      exact ih acc hinv
    | true =>
      simp only [h, if_true, List.foldl_cons]
      exact ih (addCriterion acc c)
        (fun fam => by rw [addCriterion_lookup_isSome]; exact hinv fam)

/-- C9: in the result of `list_evaluator_info`, each family's
'evaluator' entry comes from the FIRST listed evaluator of that family
(later evaluators of the same family are silently discarded), and
criteria whose family matches no listed evaluator's family are silently
dropped — filtering them out of the criteria listing does not change the
result. -/
theorem C9_first_evaluator_wins_and_orphan_criteria_dropped
    (evs : List EvaluatorRec) (cs : List CriterionRec) :
    (∀ fam, ((buildFamilyInfo evs cs).lookup fam).map FamilyEntry.evaluator =
      (evs.find? (fun e => e.evaluator_family == fam)).map (fun e => e.rest)) ∧
    buildFamilyInfo evs cs =
      buildFamilyInfo evs (cs.filter (fun c =>
        ((evs.find? (fun e => e.evaluator_family == c.evaluator_family))).isSome)) := by
  constructor
  · intro fam
    unfold buildFamilyInfo
    rw [foldl_addCriterion_lookup_evaluator, lookup_buildStep1]
    cases evs.find? (fun e => e.evaluator_family == fam) <;> simp
  · unfold buildFamilyInfo
    have hfilter : cs.filter (fun c =>
        ((evs.find? (fun e => e.evaluator_family == c.evaluator_family))).isSome) =
        cs.filter (fun c =>
          (((evs.foldl insertEvaluator []).lookup c.evaluator_family)).isSome) := by
      apply List.filter_congr
      intro c _
      rw [lookup_buildStep1]
      cases evs.find? (fun e => e.evaluator_family == c.evaluator_family) <;> simp
    rw [hfilter]
    exact foldl_addCriterion_filter (evs.foldl insertEvaluator []) cs
      (evs.foldl insertEvaluator []) (fun fam => rfl)
